import Mathlib

/-!
# Verification of the generation/edit/chat orchestration layer

Shallow embedding of the TypeScript sources of the creative-studio UI:
the service layer (`generateImage`, `generateStoryboardScene`, `editImage`,
`createChatSession` in the gemini service module), the generator component
(`handleGenerate`, `handleAddScene`, `handleRemoveScene`,
`handleStoryboardPromptChange`, `handleDownload` in ImageGenerator), the
editor component (`handleEdit`, `handleDownload` in ImageEditor) and the
chatbot component (`handleSendMessage`, `handleKeyPress` in Chatbot).

External calls to the generative service are nondeterministic from the
program's point of view; each embedded operation therefore takes the
outcome(s) of its external calls as explicit parameters
(`Except String _` mirroring resolve/reject of the underlying promise).
`Promise.all` over several concurrent calls is modelled with an explicit
completion order: a list of indices giving the order in which the
underlying promises settle.  `Promise.all` rejects with the reason of the
first promise (in completion order) that rejects, and otherwise fulfills
with the values in input-index order.
-/

namespace CreativeSuite

/-- An encoded image payload plus its declared mime type, as produced by
`fileToBase64` together with `file.type` (the `{data, mimeType}` parts
passed to the service functions). -/
structure EncodedAsset where
  data : String
  mimeType : String
deriving DecidableEq, Repr

/-- A content part of a generation request: `{ inlineData: {...} }` or
`{ text: ... }` in the source. -/
inductive Part where
  | inlineData (data : String) (mimeType : String)
  | text (t : String)
deriving DecidableEq, Repr

/-- The part of a `generateContent` response the code inspects:
`response.candidates[0].content.parts[0].inlineData`, present or absent.
When present it carries the base64 image bytes. -/
structure SceneResponse where
  inlineData : Option String
deriving DecidableEq, Repr

/-- The error payload of an `Except`, `none` on success. -/
def taskError {ε α : Type} : Except ε α → Option ε
  | .error e => some e
  | .ok _ => none

/-- Sequence a list of already-settled outcomes in input-index order,
failing with the first error in index order.  Used as the fulfilled-value
collection of `promiseAll` (when no task rejected, this is just the list
of values in input order, which is exactly the order `Promise.all`
guarantees). -/
def gatherOk {ε α : Type} : List (Except ε α) → Except ε (List α)
  | [] => .ok []
  | t :: ts =>
    match t with
    | .error e => .error e
    | .ok v => (gatherOk ts).map (fun vs => v :: vs)

/-- The reason of the first task (in completion order `order`, a list of
task indices) that rejected, if any. -/
def firstErrorByOrder {ε α : Type} (tasks : List (Except ε α)) (order : List Nat) : Option ε :=
  order.findSome? (fun i => (tasks[i]?).bind taskError)

/-- `Promise.all` over already-settled tasks: rejects with the reason of
the first rejection in completion order; if every task fulfilled, fulfills
with the values in input-index order (slot assignment is fixed by input
index, never by completion order). -/
def promiseAll {ε α : Type} (tasks : List (Except ε α)) (order : List Nat) :
    Except ε (List α) :=
  match firstErrorByOrder tasks order with
  | some e => .error e
  | none => gatherOk tasks

/-! ## Service layer (gemini service module) -/

/-- Aspect ratios accepted by the generator flow (no `original` sentinel). -/
inductive GenAspectRatio where
  | r1_1 | r9_16 | r16_9 | r4_3 | r3_4
deriving DecidableEq, Repr

/-- The string form of a generator aspect ratio, as interpolated into
prompts. -/
def GenAspectRatio.text : GenAspectRatio → String
  | .r1_1 => "1:1"
  | .r9_16 => "9:16"
  | .r16_9 => "16:9"
  | .r4_3 => "4:3"
  | .r3_4 => "3:4"

/-- Error message thrown by the `generateImage` catch block. -/
def generateImageFailMsg : String :=
  "Failed to generate image. Please check the console for details."

/-- `generateImage(prompt, aspectRatio)`: one call to the service's
`generateImages` with `numberOfImages: 4`; `extResponse` is its outcome
(`.ok` carries `response.generatedImages`, an optional list of image-byte
strings).  The code returns the data URLs when `generatedImages` exists
and is non-empty, throws "No images were generated." otherwise, and the
surrounding catch rewraps every failure into `generateImageFailMsg`.
The prompt and ratio are forwarded unmodified (ratio travels as a
structured config field, not inside the prompt text). -/
def generateImage (_prompt : String) (_aspectRatio : GenAspectRatio)
    (extResponse : Except String (Option (List String))) : Except String (List String) :=
  match extResponse with
  | .ok (some imgs) =>
    if imgs.length > 0 then
      .ok (imgs.map (fun b => "data:image/png;base64," ++ b))
    else
      .error generateImageFailMsg
  | .ok none => .error generateImageFailMsg
  | .error _ => .error generateImageFailMsg

/-- The prompt actually sent by `generateStoryboardScene`:
```${prompt}. The image should have a ${aspectRatio} aspect ratio.``` -/
def storyboardFinalPrompt (prompt : String) (aspectRatio : GenAspectRatio) : String :=
  prompt ++ ". The image should have a " ++ aspectRatio.text ++ " aspect ratio."

/-- Error message thrown by the `generateStoryboardScene` catch block
(the inner "No image was generated for this scene..." throw is caught and
rewrapped into this). -/
def sceneFailMsg (prompt : String) : String :=
  "Failed to generate scene: \"" ++ (prompt.take 20) ++ "...\". Check console for details."

/-- `generateStoryboardScene(prompt, aspectRatio, characterImages)`: one
`generateContent` call whose parts are the character images followed by
the final prompt text; `extResponse` is the call's outcome.  Success with
inline data yields one data URL; success without inline data throws,
which the catch rewraps, as it does a rejected call. -/
def generateStoryboardScene (prompt : String) (_aspectRatio : GenAspectRatio)
    (_characterImages : List EncodedAsset)
    (extResponse : Except String SceneResponse) : Except String String :=
  match extResponse with
  | .ok r =>
    match r.inlineData with
    | some data => .ok ("data:image/png;base64," ++ data)
    | none => .error (sceneFailMsg prompt)
  | .error _ => .error (sceneFailMsg prompt)

/-- Error message thrown by the `editImage` catch block. -/
def editFailMsg : String :=
  "Failed to edit image. Please check the console for details."

/-- The ordered content parts assembled by `editImage`: source image,
optional reference image, then the prompt text. -/
def editContentParts (prompt imageBase64 mimeType : String)
    (referenceImage : Option EncodedAsset) : List Part :=
  [Part.inlineData imageBase64 mimeType]
    ++ (match referenceImage with
        | some r => [Part.inlineData r.data r.mimeType]
        | none => [])
    ++ [Part.text prompt]

/-- `responses.map(...)` inside `editImage`: extract a data URL from each
response, throwing "A sub-request..." at the first response (in index
order) without inline data. -/
def mapResponsesToUrls : List SceneResponse → Except String (List String)
  | [] => .ok []
  | r :: rs =>
    match r.inlineData with
    | some data =>
      (mapResponsesToUrls rs).map (fun us => ("data:image/png;base64," ++ data) :: us)
    | none => .error "A sub-request for an edited image failed to return data."

/-- `editImage(prompt, imageBase64, mimeType, referenceImage?)`: fires 4
parallel `generateContent` calls (`Array(4).fill(0).map(...)`), awaits
them with `Promise.all`, maps the responses to data URLs, checks the
count is 4, and rewraps every failure into `editFailMsg` in its catch.
`callResults` are the outcomes of the 4 calls, `order` their completion
order. -/
def editImage (_prompt _imageBase64 _mimeType : String)
    (_referenceImage : Option EncodedAsset)
    (callResults : List (Except String SceneResponse)) (order : List Nat) :
    Except String (List String) :=
  match promiseAll callResults order with
  | .error _ => .error editFailMsg
  | .ok responses =>
    match mapResponsesToUrls responses with
    | .error _ => .error editFailMsg
    | .ok urls => if urls.length = 4 then .ok urls else .error editFailMsg

/-- The character class of the JavaScript `\s` used by `.trim()` and the
sanitizer regexes (ASCII range: space, tab, line feed, vertical tab, form
feed, carriage return). -/
def jsWhitespace (c : Char) : Bool :=
  c = ' ' || c = '\t' || c = '\n' || c = '\x0b' || c = '\x0c' || c = '\r'

/-- JavaScript `.trim()`: strip whitespace from both ends. -/
def jsTrim (s : String) : String :=
  String.mk (((s.toList.dropWhile jsWhitespace).reverse.dropWhile jsWhitespace).reverse)

/-! ## ImageGenerator component -/

/-- The generator tab's mode: single image or storyboard. -/
inductive GenMode where
  | single | storyboard
deriving DecidableEq, Repr

/-- The ImageGenerator state touched by `handleGenerate` and the scene
handlers (prompt, scene prompts, aspect ratio, results, loading flag,
error banner, mode, character reference slots). -/
structure GeneratorState where
  prompt : String
  storyboardPrompts : List String
  aspectRatio : GenAspectRatio
  generatedImages : Option (List String)
  isLoading : Bool
  error : Option String
  mode : GenMode
  characterImages : List (Option EncodedAsset)
deriving DecidableEq, Repr

/-- `storyboardPrompts.filter(p => p.trim() !== '')` in `handleGenerate`. -/
def validPrompts (ps : List String) : List String :=
  ps.filter (fun p => jsTrim p ≠ "")

/-- The `characterImageParts` array built in `handleGenerate`: the
non-null character files, encoded, in slot order. -/
def characterImageParts (cs : List (Option EncodedAsset)) : List EncodedAsset :=
  cs.filterMap id

/-- `handleGenerate`: clears the error and previous results and raises
the loading flag, validates (non-empty prompt in single mode, at least
one non-blank scene prompt in storyboard mode; validation failures set an
error and return before any external call), then performs the external
work: one `generateImage` call in single mode, or a `Promise.all` over
one `generateStoryboardScene` call per valid prompt in storyboard mode.
`singleOutcome` is the outcome of the `generateImage` call,
`sceneOutcome p` the outcome of the scene call for prompt `p`, and
`order` the completion order of the storyboard fan-out.  Besides the new
state, returns the list of prompts for which an external call was
dispatched. -/
def handleGenerate (s : GeneratorState)
    (singleOutcome : Except String (List String))
    (sceneOutcome : String → Except String String)
    (order : List Nat) : GeneratorState × List String :=
  let s0 : GeneratorState :=
    { s with isLoading := true, error := none, generatedImages := none }
  match s.mode with
  | .single =>
    if s.prompt = "" then
      ({ s0 with error := some "Please enter a prompt.", isLoading := false }, [])
    else
      match singleOutcome with
      | .ok urls =>
        ({ s0 with generatedImages := some urls, isLoading := false }, [s.prompt])
      | .error msg =>
        ({ s0 with error := some msg, isLoading := false }, [s.prompt])
  | .storyboard =>
    let vp := validPrompts s.storyboardPrompts
    if vp.length = 0 then
      ({ s0 with error := some "Please enter a prompt for at least one scene.", isLoading := false }, [])
    else
      match promiseAll (vp.map sceneOutcome) order with
      | .ok urls =>
        ({ s0 with generatedImages := some urls, isLoading := false }, vp)
      | .error msg =>
        ({ s0 with error := some msg, isLoading := false }, vp)

/-- `handleAddScene`: `setStoryboardPrompts([...storyboardPrompts, ''])`. -/
def handleAddScene (ps : List String) : List String :=
  ps ++ [""]

/-- `handleRemoveScene(index)`: only when more than one scene exists,
keep the entries whose position differs from `index`. -/
def handleRemoveScene (ps : List String) (index : Nat) : List String :=
  if ps.length > 1 then
    (ps.enum.filter (fun x => x.1 ≠ index)).map (fun x => x.2)
  else ps

/-- `handleStoryboardPromptChange(index, value)`: overwrite slot `index`. -/
def handleStoryboardPromptChange (ps : List String) (index : Nat) (value : String) :
    List String :=
  ps.set index value

/-- One user interaction with the storyboard scene list. -/
inductive SceneOp where
  | add
  | remove (index : Nat)
  | change (index : Nat) (value : String)

/-- Apply a scene-list interaction to the current prompt list. -/
def applySceneOp (ps : List String) : SceneOp → List String
  | .add => handleAddScene ps
  | .remove i => handleRemoveScene ps i
  | .change i v => handleStoryboardPromptChange ps i v

/-- Scene-prompt lists reachable from the initial `useState([''])` via
the scene handlers. -/
inductive SceneListReachable : List String → Prop where
  | init : SceneListReachable [""]
  | step {ps : List String} (op : SceneOp) :
      SceneListReachable ps → SceneListReachable (applySceneOp ps op)

/-! ## Download-name construction -/

/-- `.replace(/\s+/g, '_')` worker: the flag records whether the previous
character belonged to a whitespace run already replaced by `_`. -/
def collapseWsAux : Bool → List Char → List Char
  | _, [] => []
  | inRun, c :: cs =>
    if jsWhitespace c then
      if inRun then collapseWsAux true cs
      else '_' :: collapseWsAux true cs
    else c :: collapseWsAux false cs

/-- `.replace(/\s+/g, '_')`: collapse every maximal run of whitespace to
a single underscore. -/
def collapseWs (l : List Char) : List Char :=
  collapseWsAux false l

/-- The sanitizing pipeline both download handlers apply to a prompt:
`.substring(0, n).trim().replace(/[^a-zA-Z0-9\s]/g, '').replace(/\s+/g, '_')`. -/
def sanitizePrompt (n : Nat) (prompt : String) : String :=
  let trimmed := (jsTrim (prompt.take n)).toList
  let stripped := trimmed.filter (fun c => c.isAlpha || c.isDigit || jsWhitespace c)
  String.mk (collapseWs stripped)

/-- The generator tab's `handleDownload` file name: the sanitized prompt
(single mode: the main prompt; storyboard mode: the scene's prompt with
fallback "storyboard_scene"), with fallback "generated_image" when
sanitization yields the empty string, then `_<index+1>` (storyboard:
`_scene_<index+1>`) and `.png`. -/
def genDownloadName (mode : GenMode) (prompt : String) (storyboardPrompts : List String)
    (index : Nat) : String :=
  let filenamePrompt :=
    match mode with
    | .single => prompt
    | .storyboard =>
      match storyboardPrompts[index]? with
      | some p => if p = "" then "storyboard_scene" else p
      | none => "storyboard_scene"
  let sanitized := sanitizePrompt 50 filenamePrompt
  let filename := if sanitized = "" then "generated_image" else sanitized
  let suffix :=
    match mode with
    | .single => "_" ++ Nat.repr (index + 1)
    | .storyboard => "_scene_" ++ Nat.repr (index + 1)
  filename ++ suffix ++ ".png"

/-- The editor tab's `handleDownload` file name:
`originalImage?.file.name.split('.')[0] || 'edited_image'` (the first
dot-separated segment of the file name, i.e. its characters before the
first dot), an
underscore, the sanitized prompt truncated to 30 (fallback "edited"),
an underscore, `index + 1`, and `.png`. -/
def editDownloadName (originalFileName : Option String) (prompt : String)
    (index : Nat) : String :=
  let originalName :=
    match originalFileName with
    | some nm =>
      let base := String.mk (nm.toList.takeWhile (fun c => c ≠ '.'))
      if base = "" then "edited_image" else base
    | none => "edited_image"
  let promptPart := sanitizePrompt 30 prompt
  originalName ++ "_" ++ (if promptPart = "" then "edited" else promptPart)
    ++ "_" ++ Nat.repr (index + 1) ++ ".png"

/-- The download file name exactly as the specification words it: the
prompt truncated/sanitized (non-alphanumeric stripped, whitespace runs
collapsed to underscore) followed by the 1-based index suffix and the
`.png` extension.  Spec-side formalization, kept to compare against the
download names the components actually build. -/
def claimedDownloadName (n : Nat) (prompt : String) (index : Nat) : String :=
  sanitizePrompt n prompt ++ "_" ++ Nat.repr (index + 1) ++ ".png"

/-! ## ImageEditor component -/

/-- Aspect ratios of the editor tab, including the `original` sentinel. -/
inductive EditAspectRatio where
  | original | r1_1 | r9_16 | r16_9 | r4_3 | r3_4
deriving DecidableEq, Repr

/-- The string form of an editor aspect ratio, as interpolated into the
prompt for non-`original` selections. -/
def EditAspectRatio.text : EditAspectRatio → String
  | .original => "original"
  | .r1_1 => "1:1"
  | .r9_16 => "9:16"
  | .r16_9 => "16:9"
  | .r4_3 => "4:3"
  | .r3_4 => "3:4"

/-- The ratio directive the editor appends for a non-`original` ratio:
```. Change the aspect ratio of the image to ${aspectRatio}.``` -/
def editRatioDirective (r : EditAspectRatio) : String :=
  ". Change the aspect ratio of the image to " ++ r.text ++ "."

/-- The `finalPrompt` computed in `handleEdit`: the prompt itself for
`original`, otherwise the prompt with the ratio directive appended. -/
def buildEditPrompt (prompt : String) (r : EditAspectRatio) : String :=
  if r = .original then prompt
  else prompt ++ editRatioDirective r

/-- An uploaded file as the editor sees it: its name and declared type
together with its base64 encoding (the result of `fileToBase64`). -/
structure UploadedImage where
  name : String
  mimeType : String
  base64 : String
deriving DecidableEq, Repr

/-- The ImageEditor state touched by `handleEdit`. -/
structure EditorState where
  prompt : String
  aspectRatio : EditAspectRatio
  originalImage : Option UploadedImage
  referenceImage : Option UploadedImage
  editedImages : Option (List String)
  isLoading : Bool
  error : Option String
deriving DecidableEq, Repr

/-- `handleEdit`: validates that a prompt and an original image exist
(otherwise sets an error and returns before touching anything else),
then clears error/results, raises the loading flag, builds `finalPrompt`,
and calls `editImage`; `editOutcome` maps the final prompt to the
outcome of that call.  Returns the new state together with the list of
final prompts for which an external edit call was dispatched. -/
def handleEdit (s : EditorState)
    (editOutcome : String → Except String (List String)) : EditorState × List String :=
  if s.prompt = "" ∨ s.originalImage = none then
    ({ s with error := some "Please upload an image and provide an editing prompt." }, [])
  else
    let s0 : EditorState :=
      { s with isLoading := true, error := none, editedImages := none }
    let finalPrompt := buildEditPrompt s.prompt s.aspectRatio
    match editOutcome finalPrompt with
    | .ok urls =>
      ({ s0 with editedImages := some urls, isLoading := false }, [finalPrompt])
    | .error msg =>
      ({ s0 with error := some msg, isLoading := false }, [finalPrompt])

/-! ## Chatbot component -/

/-- `ChatMessage` from the types module. -/
inductive ChatRole where
  | user | model
deriving DecidableEq, Repr

/-- A transcript entry `{role, text}`. -/
structure ChatMsg where
  role : ChatRole
  text : String
deriving DecidableEq, Repr

/-- The Chatbot state touched by `handleSendMessage`: whether the chat
session handle exists, the transcript, the input box and the loading
flag. -/
structure ChatState where
  hasChat : Bool
  messages : List ChatMsg
  userInput : String
  isLoading : Bool
deriving DecidableEq, Repr

/-- The synchronous prefix of `handleSendMessage`: return unchanged when
the trimmed input is empty or no session exists; otherwise append the
user message, clear the input and raise the loading flag (the awaited
send happens afterwards). -/
def sendMessageStart (s : ChatState) : ChatState :=
  if jsTrim s.userInput = "" ∨ s.hasChat = false then s
  else
    { s with
      messages := s.messages ++ [{ role := .user, text := s.userInput }],
      userInput := "",
      isLoading := true }

/-- The continuation of `handleSendMessage` once `chat.sendMessage`
settles: on success append the model's reply; on failure append the
synthetic apology message; either way drop the loading flag. -/
def sendMessageResolve (s : ChatState) (response : Except String String) : ChatState :=
  match response with
  | .ok text =>
    { s with
      messages := s.messages ++ [{ role := .model, text := text }],
      isLoading := false }
  | .error _ =>
    { s with
      messages := s.messages
        ++ [{ role := .model, text := "Sorry, I encountered an error. Please try again." }],
      isLoading := false }

/-- A submit intent from the rendering surface.  Both entry points into
`handleSendMessage` are gated on the loading flag: the send button has
`disabled={isLoading || !chat || !userInput.trim()}` and `handleKeyPress`
only calls `handleSendMessage` when `e.key === 'Enter' && !isLoading`;
so a submit while a request is in flight never reaches
`handleSendMessage`. -/
def submitChatIntent (s : ChatState) : ChatState :=
  if s.isLoading then s else sendMessageStart s

/-- One observable transition of the chat session: a submit intent, or
the resolution of the in-flight send (which exists only while the
loading flag is up). -/
inductive ChatStep : ChatState → ChatState → Prop where
  | submit (s : ChatState) : ChatStep s (submitChatIntent s)
  | resolve (s : ChatState) (r : Except String String) (h : s.isLoading = true) :
      ChatStep s (sendMessageResolve s r)

/-! ## Helper lemmas -/

theorem gatherOk_map_ok {ε : Type} {α β : Type} (img : α → β) :
    ∀ l : List α,
      gatherOk (ε := ε) (l.map (fun p => Except.ok (img p))) = Except.ok (l.map img)
  | [] => rfl
  | p :: l => by
    simp only [List.map_cons, gatherOk, gatherOk_map_ok img l, Except.map]

theorem firstErrorByOrder_eq_none {ε α : Type} (tasks : List (Except ε α))
    (h : ∀ t ∈ tasks, taskError t = none) :
    ∀ order : List Nat, firstErrorByOrder tasks order = none
  | [] => rfl
  | i :: order => by
    have hi : (tasks[i]?).bind taskError = none := by
      cases htask : tasks[i]? with
      | none => rfl
      | some t => simpa using h t (List.getElem?_mem htask)
    simp only [firstErrorByOrder, List.findSome?] at *
    rw [hi]
    exact firstErrorByOrder_eq_none tasks h order

theorem promiseAll_map_ok {ε : Type} {α β : Type} (f : α → Except ε β) (img : α → β)
    (l : List α) (h : ∀ p ∈ l, f p = Except.ok (img p)) (order : List Nat) :
    promiseAll (l.map f) order = Except.ok (l.map img) := by
  have hmap : l.map f = l.map (fun p => Except.ok (img p)) := List.map_congr_left h
  rw [promiseAll, hmap, firstErrorByOrder_eq_none, gatherOk_map_ok]
  intro t ht
  obtain ⟨p, _, rfl⟩ := List.mem_map.mp ht
  rfl

theorem firstErrorByOrder_isSome {ε α : Type} (tasks : List (Except ε α))
    (j : Nat) (e : ε) (hj : tasks[j]? = some (Except.error e)) :
    ∀ order : List Nat, j ∈ order →
      ∃ e2, firstErrorByOrder tasks order = some e2 := by
  intro order
  induction order with
  | nil => intro hmem; exact absurd hmem (List.not_mem_nil j)
  | cons i order ih =>
    intro hmem
    simp only [firstErrorByOrder, List.findSome?]
    cases hi : (tasks[i]?).bind taskError with
    | some e2 => exact ⟨e2, rfl⟩
    | none =>
      rcases List.mem_cons.mp hmem with rfl | hmem2
      · rw [hj] at hi
        simp [taskError] at hi
      · exact ih hmem2

theorem promiseAll_error {ε α : Type} (tasks : List (Except ε α)) (order : List Nat)
    (j : Nat) (e : ε) (hj : tasks[j]? = some (Except.error e)) (hmem : j ∈ order) :
    ∃ e2, firstErrorByOrder tasks order = some e2 ∧
      promiseAll tasks order = Except.error e2 := by
  obtain ⟨e2, he2⟩ := firstErrorByOrder_isSome tasks j e hj order hmem
  exact ⟨e2, he2, by rw [promiseAll, he2]⟩

theorem collapseWsAux_chars :
    ∀ (l : List Char) (b : Bool),
      (∀ c ∈ l, (c.isAlpha || c.isDigit || jsWhitespace c) = true) →
      ∀ c ∈ collapseWsAux b l, (c.isAlpha || c.isDigit || decide (c = '_')) = true
  | [], _, _ => by simp [collapseWsAux]
  | c0 :: l, b, h => by
    intro c hc
    have htail : ∀ d ∈ l, (d.isAlpha || d.isDigit || jsWhitespace d) = true :=
      fun d hd => h d (List.mem_cons_of_mem _ hd)
    by_cases hws : jsWhitespace c0 = true
    · cases b with
      | true =>
        simp only [collapseWsAux, hws, if_true] at hc
        exact collapseWsAux_chars l true htail c hc
      | false =>
        simp only [collapseWsAux, hws, if_true] at hc
        rcases List.mem_cons.mp hc with rfl | hc2
        · simp
        · exact collapseWsAux_chars l true htail c hc2
    · simp only [collapseWsAux, hws, if_false] at hc
      rcases List.mem_cons.mp hc with rfl | hc2
      · have h0 := h c (List.mem_cons_self _ _)
        simp only [Bool.or_eq_true] at h0 ⊢
        rcases h0 with (ha | hd) | hw
        · exact Or.inl (Or.inl ha)
        · exact Or.inl (Or.inr hd)
        · exact absurd hw hws
      · exact collapseWsAux_chars l false htail c hc2

theorem enumFrom_filter_ne_map_snd :
    ∀ (l : List String) (n i : Nat),
      ((List.enumFrom n l).filter (fun x => x.1 ≠ n + i)).map Prod.snd = l.eraseIdx i
  | [], _, _ => rfl
  | a :: l, n, 0 => by
    simp only [List.enumFrom, List.filter_cons]
    rw [if_neg (by simp)]
    rw [List.filter_eq_self.mpr, List.enumFrom_map_snd, List.eraseIdx]
    intro x hx
    have hle : n + 1 ≤ x.1 := by
      obtain ⟨j, y⟩ := x
      exact (List.mk_mem_enumFrom_iff_le_and_getElem?_sub.mp hx).1
    simp only [decide_eq_true_eq]
    omega
  | a :: l, n, i + 1 => by
    simp only [List.enumFrom, List.filter_cons]
    rw [if_pos (by simp only [decide_eq_true_eq]; omega)]
    rw [List.map_cons, List.eraseIdx]
    rw [show n + (i + 1) = (n + 1) + i by omega]
    rw [enumFrom_filter_ne_map_snd l (n + 1) i]

theorem handleRemoveScene_eq_eraseIdx (ps : List String) (i : Nat) :
    handleRemoveScene ps i = if ps.length > 1 then ps.eraseIdx i else ps := by
  by_cases h : ps.length > 1
  · rw [if_pos h]
    simp only [handleRemoveScene, if_pos h, List.enum]
    have := enumFrom_filter_ne_map_snd ps 0 i
    simpa using this
  · rw [if_neg h]
    simp [handleRemoveScene, h]

/-! ## Claim theorems -/

/-- C1: For every storyboard fan-out of K >= 1 non-blank scene prompts,
when every external scene call succeeds the aggregate result sequence has
length exactly K and the result at slot i is the image produced for the
i-th scene prompt, for every possible completion order of the K
concurrent calls. -/
theorem c1_storyboard_order_preservation
    (s : GeneratorState) (hmode : s.mode = GenMode.storyboard)
    (sceneOutcome : String → Except String String) (img : String → String)
    (hok : ∀ p ∈ validPrompts s.storyboardPrompts, sceneOutcome p = Except.ok (img p))
    (hK : 1 ≤ (validPrompts s.storyboardPrompts).length)
    (singleOutcome : Except String (List String)) (order : List Nat) :
    ∃ results : List String,
      (handleGenerate s singleOutcome sceneOutcome order).1.generatedImages = some results ∧
      results.length = (validPrompts s.storyboardPrompts).length ∧
      ∀ i : Nat, i < (validPrompts s.storyboardPrompts).length →
        results[i]? = ((validPrompts s.storyboardPrompts)[i]?).map img := by
  refine ⟨(validPrompts s.storyboardPrompts).map img, ?_, by simp, ?_⟩
  · simp only [handleGenerate, hmode]
    rw [if_neg (by omega)]
    rw [promiseAll_map_ok sceneOutcome img _ hok order]
  · intro i _
    simp [List.getElem?_map]

/-- Witness for C1 at a concrete storyboard state with scene prompts
["a", "", "b"] (so K = 2 non-blank prompts), all calls succeeding, under
the reversed completion order [1, 0]. -/
theorem c1_witness :
    ∃ results : List String,
      (handleGenerate
        { prompt := "", storyboardPrompts := ["a", "", "b"],
          aspectRatio := GenAspectRatio.r16_9, generatedImages := none,
          isLoading := false, error := none, mode := GenMode.storyboard,
          characterImages := [none, none] }
        (Except.error "unused")
        (fun p => Except.ok ("img-" ++ p)) [1, 0]).1.generatedImages = some results ∧
      results.length = (validPrompts ["a", "", "b"]).length ∧
      ∀ i : Nat, i < (validPrompts ["a", "", "b"]).length →
        results[i]? = ((validPrompts ["a", "", "b"])[i]?).map (fun p => "img-" ++ p) :=
  c1_storyboard_order_preservation _ rfl _ (fun p => "img-" ++ p)
    (fun p _ => rfl) (by decide) _ _

/-- C2 counterexample: the capability returns only 2 of the 4 requested
images, yet `generateImage` succeeds and returns the partial list of 2 —
there is no count-equals-4 validation and no `IncompleteBatchError`; the
code only rejects an empty result. -/
theorem c2_counterexample :
    (["a", "b"].length < 4) ∧
    generateImage "p" GenAspectRatio.r16_9 (Except.ok (some ["a", "b"]))
      = Except.ok ["data:image/png;base64,a", "data:image/png;base64,b"] :=
  ⟨by decide, rfl⟩

/-- C2 (amended): `generateImage` fails (with its generic failure
message, there is no `IncompleteBatchError`) exactly when the external
call rejects or returns a missing/empty image list; any non-empty list —
even one shorter than the 4 requested — is returned in full as data
URLs, i.e. a short non-empty batch is a partial success, not a hard
failure. -/
theorem c2_short_batch_behaviour (p : String) (r : GenAspectRatio) (e : String)
    (b : String) (bs : List String) :
    generateImage p r (Except.error e) = Except.error generateImageFailMsg ∧
    generateImage p r (Except.ok none) = Except.error generateImageFailMsg ∧
    generateImage p r (Except.ok (some [])) = Except.error generateImageFailMsg ∧
    generateImage p r (Except.ok (some (b :: bs)))
      = Except.ok ((b :: bs).map (fun s => "data:image/png;base64," ++ s)) :=
  ⟨rfl, rfl, rfl, by simp [generateImage]⟩

/-- C3 counterexample: in the 4-variant edit fan-out, one call rejects
with reason "boom"; the aggregate fails, but not *with* that first
encountered failure: `editImage` catches it and surfaces its generic
message instead. -/
theorem c3_counterexample :
    editImage "p" "img" "image/png" none
      [Except.ok { inlineData := some "a" }, Except.error "boom",
       Except.ok { inlineData := some "c" }, Except.ok { inlineData := some "d" }]
      [0, 1, 2, 3]
      = Except.error editFailMsg ∧
    editFailMsg ≠ "boom" :=
  ⟨rfl, by decide⟩

/-- C3 (amended): if at least one of the K Shape-B calls fails, the
aggregate fails and no result list containing any successful image is
returned.  For the storyboard fan-out the surfaced error is exactly the
first encountered failure in completion order; for the edit fan-out the
operation fails with the generic edit-failure message (the first
encountered failure is caught and rewrapped). -/
theorem c3_all_or_nothing :
    (∀ (s : GeneratorState), s.mode = GenMode.storyboard →
      ∀ (sceneOutcome : String → Except String String)
        (singleOutcome : Except String (List String)) (order : List Nat)
        (j : Nat) (e : String),
        ((validPrompts s.storyboardPrompts).map sceneOutcome)[j]? = some (Except.error e) →
        j ∈ order →
        ∃ e2,
          firstErrorByOrder ((validPrompts s.storyboardPrompts).map sceneOutcome) order
            = some e2 ∧
          (handleGenerate s singleOutcome sceneOutcome order).1.error = some e2 ∧
          (handleGenerate s singleOutcome sceneOutcome order).1.generatedImages = none) ∧
    (∀ (prompt imageBase64 mimeType : String) (ref : Option EncodedAsset)
        (callResults : List (Except String SceneResponse)) (order : List Nat)
        (j : Nat) (e : String),
        callResults[j]? = some (Except.error e) → j ∈ order →
        editImage prompt imageBase64 mimeType ref callResults order
          = Except.error editFailMsg) := by
  constructor
  · intro s hmode sceneOutcome singleOutcome order j e hj hmem
    obtain ⟨e2, he2, hpa⟩ :=
      promiseAll_error ((validPrompts s.storyboardPrompts).map sceneOutcome) order j e hj hmem
    have hlt : j < ((validPrompts s.storyboardPrompts).map sceneOutcome).length := by
      by_contra hge
      rw [List.getElem?_eq_none (Nat.le_of_not_lt hge)] at hj
      exact Option.noConfusion hj
    have hlen : validPrompts s.storyboardPrompts ≠ [] := by
      intro hnil
      rw [hnil] at hlt
      simp at hlt
    refine ⟨e2, he2, ?_, ?_⟩ <;>
      simp only [handleGenerate, hmode] <;>
      rw [if_neg (by simpa [List.length_eq_zero] using hlen), hpa]
  · intro prompt imageBase64 mimeType ref callResults order j e hj hmem
    obtain ⟨e2, _, hpa⟩ := promiseAll_error callResults order j e hj hmem
    simp only [editImage]
    rw [hpa]

/-- Witness for C3: a storyboard fan-out where the scene call for "b"
rejects (completion order [1, 0], so it settles first), and a concrete
4-variant edit fan-out with one rejected call. -/
theorem c3_witness :
    (∃ e2,
      firstErrorByOrder
        ((validPrompts ["a", "b"]).map
          (fun p => if p = "b" then Except.error ("boom-" ++ p) else Except.ok p))
        [1, 0] = some e2 ∧
      (handleGenerate
        { prompt := "", storyboardPrompts := ["a", "b"],
          aspectRatio := GenAspectRatio.r16_9, generatedImages := none,
          isLoading := false, error := none, mode := GenMode.storyboard,
          characterImages := [none, none] }
        (Except.error "unused")
        (fun p => if p = "b" then Except.error ("boom-" ++ p) else Except.ok p)
        [1, 0]).1.error = some e2 ∧
      (handleGenerate
        { prompt := "", storyboardPrompts := ["a", "b"],
          aspectRatio := GenAspectRatio.r16_9, generatedImages := none,
          isLoading := false, error := none, mode := GenMode.storyboard,
          characterImages := [none, none] }
        (Except.error "unused")
        (fun p => if p = "b" then Except.error ("boom-" ++ p) else Except.ok p)
        [1, 0]).1.generatedImages = none) ∧
    editImage "p2" "img2" "image/jpeg" (some { data := "r", mimeType := "image/png" })
      [Except.error "eboom", Except.ok { inlineData := some "b" },
       Except.ok { inlineData := some "c" }, Except.ok { inlineData := some "d" }]
      [2, 0, 1, 3] = Except.error editFailMsg :=
  ⟨c3_all_or_nothing.1
     { prompt := "", storyboardPrompts := ["a", "b"],
       aspectRatio := GenAspectRatio.r16_9, generatedImages := none,
       isLoading := false, error := none, mode := GenMode.storyboard,
       characterImages := [none, none] }
     rfl
     (fun p => if p = "b" then Except.error ("boom-" ++ p) else Except.ok p)
     (Except.error "unused") [1, 0] 1 "boom-b" rfl (by decide),
   c3_all_or_nothing.2 "p2" "img2" "image/jpeg" (some { data := "r", mimeType := "image/png" })
     [Except.error "eboom", Except.ok { inlineData := some "b" },
      Except.ok { inlineData := some "c" }, Except.ok { inlineData := some "d" }]
     [2, 0, 1, 3] 0 "eboom" rfl (by decide)⟩

/-- C4: submitting a chat message while a prior request is still
awaiting its response (loading flag up, i.e. AwaitingResponse) is
ignored as a no-op — the whole state, and in particular the transcript
length, is unchanged until the prior response resolves. -/
theorem c4_no_submit_while_awaiting (s : ChatState) (h : s.isLoading = true) :
    submitChatIntent s = s ∧
    (submitChatIntent s).messages.length = s.messages.length := by
  have hs : submitChatIntent s = s := by
    simp [submitChatIntent, h]
  exact ⟨hs, by rw [hs]⟩

/-- Witness for C4 at a concrete state with a pending request. -/
theorem c4_witness :
    submitChatIntent
      { hasChat := true,
        messages := [{ role := ChatRole.user, text := "hello" }],
        userInput := "next question", isLoading := true }
      = { hasChat := true,
          messages := [{ role := ChatRole.user, text := "hello" }],
          userInput := "next question", isLoading := true } :=
  (c4_no_submit_while_awaiting
    { hasChat := true,
      messages := [{ role := ChatRole.user, text := "hello" }],
      userInput := "next question", isLoading := true } rfl).1

/-- C5: when the external send call throws, the transcript gains exactly
one synthetic assistant message carrying the apologetic text (no raw
error is surfaced into the transcript), and the loading flag drops so
the session is Ready for the next message. -/
theorem c5_error_synthetic_message (s : ChatState) (e : String) :
    (sendMessageResolve s (Except.error e)).messages
      = s.messages
        ++ [{ role := ChatRole.model,
              text := "Sorry, I encountered an error. Please try again." }] ∧
    (sendMessageResolve s (Except.error e)).messages.length
      = s.messages.length + 1 ∧
    (sendMessageResolve s (Except.error e)).isLoading = false :=
  ⟨rfl, by simp [sendMessageResolve], rfl⟩

/-- C7: an empty prompt (single mode / edit mode) or an all-blank scene
list (storyboard mode) is a validation failure: an error is set, no
external call is dispatched (the dispatched list is empty), and the
previously displayed results are cleared (generator: reset to `none`
before validation) or unchanged (editor: untouched by the early
return). -/
theorem c7_validation_short_circuits :
    (∀ (s : GeneratorState), s.mode = GenMode.single → s.prompt = "" →
      ∀ (singleOutcome : Except String (List String))
        (sceneOutcome : String → Except String String) (order : List Nat),
        (handleGenerate s singleOutcome sceneOutcome order).2 = [] ∧
        (handleGenerate s singleOutcome sceneOutcome order).1.error
          = some "Please enter a prompt." ∧
        (handleGenerate s singleOutcome sceneOutcome order).1.generatedImages = none) ∧
    (∀ (s : GeneratorState), s.mode = GenMode.storyboard →
      validPrompts s.storyboardPrompts = [] →
      ∀ (singleOutcome : Except String (List String))
        (sceneOutcome : String → Except String String) (order : List Nat),
        (handleGenerate s singleOutcome sceneOutcome order).2 = [] ∧
        (handleGenerate s singleOutcome sceneOutcome order).1.error
          = some "Please enter a prompt for at least one scene." ∧
        (handleGenerate s singleOutcome sceneOutcome order).1.generatedImages = none) ∧
    (∀ (s : EditorState), s.prompt = "" ∨ s.originalImage = none →
      ∀ editOutcome : String → Except String (List String),
        (handleEdit s editOutcome).2 = [] ∧
        (handleEdit s editOutcome).1.error
          = some "Please upload an image and provide an editing prompt." ∧
        (handleEdit s editOutcome).1.editedImages = s.editedImages) := by
  refine ⟨?_, ?_, ?_⟩
  · intro s hmode hprompt singleOutcome sceneOutcome order
    refine ⟨?_, ?_, ?_⟩ <;> simp [handleGenerate, hmode, hprompt]
  · intro s hmode hvp singleOutcome sceneOutcome order
    refine ⟨?_, ?_, ?_⟩ <;> simp [handleGenerate, hmode, hvp]
  · intro s hval editOutcome
    refine ⟨?_, ?_, ?_⟩ <;> simp [handleEdit, if_pos hval]

/-- Witness for C7: empty single-mode prompt, an all-blank storyboard,
and an editor submit without an uploaded image. -/
theorem c7_witness :
    ((handleGenerate
        { prompt := "", storyboardPrompts := [""],
          aspectRatio := GenAspectRatio.r16_9, generatedImages := some ["old"],
          isLoading := false, error := none, mode := GenMode.single,
          characterImages := [none, none] }
        (Except.ok ["x"]) (fun _ => Except.ok "y") []).2 = [] ∧
      (handleGenerate
        { prompt := "", storyboardPrompts := [""],
          aspectRatio := GenAspectRatio.r16_9, generatedImages := some ["old"],
          isLoading := false, error := none, mode := GenMode.single,
          characterImages := [none, none] }
        (Except.ok ["x"]) (fun _ => Except.ok "y") []).1.error
        = some "Please enter a prompt." ∧
      (handleGenerate
        { prompt := "", storyboardPrompts := [""],
          aspectRatio := GenAspectRatio.r16_9, generatedImages := some ["old"],
          isLoading := false, error := none, mode := GenMode.single,
          characterImages := [none, none] }
        (Except.ok ["x"]) (fun _ => Except.ok "y") []).1.generatedImages = none) ∧
    ((handleGenerate
        { prompt := "p", storyboardPrompts := ["", "  "],
          aspectRatio := GenAspectRatio.r16_9, generatedImages := none,
          isLoading := false, error := none, mode := GenMode.storyboard,
          characterImages := [none, none] }
        (Except.ok ["x"]) (fun _ => Except.ok "y") []).2 = [] ∧
      (handleGenerate
        { prompt := "p", storyboardPrompts := ["", "  "],
          aspectRatio := GenAspectRatio.r16_9, generatedImages := none,
          isLoading := false, error := none, mode := GenMode.storyboard,
          characterImages := [none, none] }
        (Except.ok ["x"]) (fun _ => Except.ok "y") []).1.error
        = some "Please enter a prompt for at least one scene." ∧
      (handleGenerate
        { prompt := "p", storyboardPrompts := ["", "  "],
          aspectRatio := GenAspectRatio.r16_9, generatedImages := none,
          isLoading := false, error := none, mode := GenMode.storyboard,
          characterImages := [none, none] }
        (Except.ok ["x"]) (fun _ => Except.ok "y") []).1.generatedImages = none) ∧
    ((handleEdit
        { prompt := "make it pop", aspectRatio := EditAspectRatio.original,
          originalImage := none, referenceImage := none,
          editedImages := some ["keep"], isLoading := false, error := none }
        (fun _ => Except.ok ["x"])).2 = [] ∧
      (handleEdit
        { prompt := "make it pop", aspectRatio := EditAspectRatio.original,
          originalImage := none, referenceImage := none,
          editedImages := some ["keep"], isLoading := false, error := none }
        (fun _ => Except.ok ["x"])).1.error
        = some "Please upload an image and provide an editing prompt." ∧
      (handleEdit
        { prompt := "make it pop", aspectRatio := EditAspectRatio.original,
          originalImage := none, referenceImage := none,
          editedImages := some ["keep"], isLoading := false, error := none }
        (fun _ => Except.ok ["x"])).1.editedImages = some ["keep"]) :=
  ⟨c7_validation_short_circuits.1 _ rfl rfl _ _ _,
   c7_validation_short_circuits.2.1
     { prompt := "p", storyboardPrompts := ["", "  "],
       aspectRatio := GenAspectRatio.r16_9, generatedImages := none,
       isLoading := false, error := none, mode := GenMode.storyboard,
       characterImages := [none, none] }
     rfl rfl _ _ _,
   c7_validation_short_circuits.2.2 _ (Or.inr rfl) _⟩

/-- C8: the chat transcript is append-only and strictly ordered: every
observable transition (a submit intent, which appends the user message
synchronously, or the resolution of the in-flight send, which appends
one assistant message) leaves the previous transcript a prefix of the
new one, appending at most one message at its end. -/
theorem c8_transcript_append_only (s s2 : ChatState) (h : ChatStep s s2) :
    s.messages <+: s2.messages ∧
    (s2.messages = s.messages ∨ ∃ m : ChatMsg, s2.messages = s.messages ++ [m]) := by
  cases h with
  | submit =>
    by_cases hl : s.isLoading
    · simp [submitChatIntent, hl]
    · by_cases hg : jsTrim s.userInput = "" ∨ s.hasChat = false
      · simp [submitChatIntent, hl, sendMessageStart, hg]
      · refine ⟨⟨[{ role := ChatRole.user, text := s.userInput }], ?_⟩,
          Or.inr ⟨{ role := ChatRole.user, text := s.userInput }, ?_⟩⟩ <;>
          simp [submitChatIntent, hl, sendMessageStart, hg]
  | resolve r hload =>
    cases r with
    | ok t =>
      exact ⟨⟨[{ role := ChatRole.model, text := t }], by simp [sendMessageResolve]⟩,
        Or.inr ⟨{ role := ChatRole.model, text := t }, by simp [sendMessageResolve]⟩⟩
    | error e =>
      exact ⟨⟨[{ role := ChatRole.model,
                 text := "Sorry, I encountered an error. Please try again." }],
          by simp [sendMessageResolve]⟩,
        Or.inr ⟨{ role := ChatRole.model,
                  text := "Sorry, I encountered an error. Please try again." },
          by simp [sendMessageResolve]⟩⟩

/-- Witness for C8 at a concrete submit step appending a user message. -/
theorem c8_witness :
    ([{ role := ChatRole.user, text := "hi" }] : List ChatMsg) <+:
      (submitChatIntent
        { hasChat := true,
          messages := [{ role := ChatRole.user, text := "hi" }],
          userInput := "how are you", isLoading := false }).messages :=
  (c8_transcript_append_only
    { hasChat := true,
      messages := [{ role := ChatRole.user, text := "hi" }],
      userInput := "how are you", isLoading := false }
    _ (ChatStep.submit _)).1

/-- C6: the editor prompt builder with aspectRatio = original leaves the
prompt text unchanged (never appends a ratio directive); with any other
ratio the resulting text is exactly the prompt with the ratio directive
appended once (so it differs from the bare prompt); the storyboard scene
builder (whose ratio type has no original sentinel) likewise appends its
directive exactly once. -/
theorem c6_ratio_directive (p : String) (r : EditAspectRatio) (g : GenAspectRatio) :
    buildEditPrompt p EditAspectRatio.original = p ∧
    (r ≠ EditAspectRatio.original →
      buildEditPrompt p r = p ++ editRatioDirective r ∧ buildEditPrompt p r ≠ p) ∧
    storyboardFinalPrompt p g
      = p ++ (". The image should have a " ++ g.text ++ " aspect ratio.") ∧
    storyboardFinalPrompt p g ≠ p := by
  refine ⟨rfl, ?_, ?_, ?_⟩
  · intro hr
    have heq : buildEditPrompt p r = p ++ editRatioDirective r := by
      simp [buildEditPrompt, hr]
    refine ⟨heq, ?_⟩
    rw [heq]
    intro habs
    have hlen := congrArg String.length habs
    have hpos : 0 < (editRatioDirective r).length := by
      cases r
      · exact absurd rfl hr
      all_goals decide
    rw [String.length_append] at hlen
    omega
  · simp [storyboardFinalPrompt, String.append_assoc]
  · intro habs
    have hlen := congrArg String.length habs
    simp only [storyboardFinalPrompt, String.length_append] at hlen
    have hpos : 0 < ". The image should have a ".length := by decide
    omega

/-- Witness for C6 at prompt "hello" and ratio 16:9. -/
theorem c6_witness :
    buildEditPrompt "hello" EditAspectRatio.original = "hello" ∧
    buildEditPrompt "hello" EditAspectRatio.r16_9
      = "hello" ++ editRatioDirective EditAspectRatio.r16_9 :=
  ⟨(c6_ratio_directive "hello" EditAspectRatio.r16_9 GenAspectRatio.r1_1).1,
   ((c6_ratio_directive "hello" EditAspectRatio.r16_9 GenAspectRatio.r1_1).2.1
     (by decide)).1⟩

set_option maxRecDepth 8192 in
/-- C9 counterexample: for an edited image with original file
"photo.jpg", prompt "cat" and index 0, the code produces
"photo_cat_1.png" — the original file's base name is prefixed — while
the name built from the prompt alone as the claim describes it is
"cat_1.png". -/
theorem c9_counterexample :
    editDownloadName (some "photo.jpg") "cat" 0 = "photo_cat_1.png" ∧
    claimedDownloadName 30 "cat" 0 = "cat_1.png" ∧
    editDownloadName (some "photo.jpg") "cat" 0 ≠ claimedDownloadName 30 "cat" 0 :=
  ⟨rfl, rfl, by decide⟩

/-- C9 (amended): every character of the sanitized prompt part is
alphanumeric or an underscore; the single-mode generator download name
is the sanitized prompt (truncated to 50, fallback "generated_image")
plus `_<index+1>.png`; the storyboard name is the same sanitization of
the scene's prompt (slot `index`, falling back to "storyboard_scene"
when absent or empty, and to "generated_image" when sanitization yields
"") plus `_scene_<index+1>.png`; the editor download name uses the same
sanitized prompt (truncated to 30, fallback "edited") and 1-based
`.png` suffix but prefixes the original file's base name (its text
before the first dot, fallback "edited_image"). -/
theorem c9_download_name (prompt nm : String) (sb : List String) (n i : Nat) :
    ((sanitizePrompt n prompt).toList.all
        (fun c => c.isAlpha || c.isDigit || decide (c = '_'))) = true ∧
    genDownloadName GenMode.single prompt sb i
      = (if sanitizePrompt 50 prompt = "" then "generated_image"
         else sanitizePrompt 50 prompt) ++ "_" ++ Nat.repr (i + 1) ++ ".png" ∧
    genDownloadName GenMode.storyboard prompt sb i
      = (if sanitizePrompt 50 (match sb[i]? with
            | some p => if p = "" then "storyboard_scene" else p
            | none => "storyboard_scene") = "" then "generated_image"
         else sanitizePrompt 50 (match sb[i]? with
            | some p => if p = "" then "storyboard_scene" else p
            | none => "storyboard_scene"))
        ++ "_scene_" ++ Nat.repr (i + 1) ++ ".png" ∧
    editDownloadName (some nm) prompt i
      = (if String.mk (nm.toList.takeWhile (fun c => c ≠ '.')) = "" then "edited_image"
         else String.mk (nm.toList.takeWhile (fun c => c ≠ '.')))
        ++ "_"
        ++ (if sanitizePrompt 30 prompt = "" then "edited" else sanitizePrompt 30 prompt)
        ++ "_" ++ Nat.repr (i + 1) ++ ".png" := by
  refine ⟨?_, ?_, ?_, ?_⟩
  · rw [List.all_eq_true]
    intro c hc
    have hmem : c ∈ collapseWs ((jsTrim (prompt.take n)).toList.filter
        (fun ch => ch.isAlpha || ch.isDigit || jsWhitespace ch)) := hc
    refine collapseWsAux_chars _ false ?_ c hmem
    intro d hd
    exact (List.mem_filter.mp hd).2
  · simp [genDownloadName, String.append_assoc]
  · simp [genDownloadName, String.append_assoc]
  · simp [editDownloadName, String.append_assoc]

/-- C10: the storyboard scene-prompt list starts as the one-element list
[""], adding a scene appends exactly one (empty) entry, removing is a
no-op when exactly one entry remains, and every reachable list has at
least one slot. -/
theorem c10_scene_list_nonempty (ps : List String) (h : SceneListReachable ps) :
    1 ≤ ps.length ∧
    handleAddScene ps = ps ++ [""] ∧
    (ps.length = 1 → ∀ i : Nat, handleRemoveScene ps i = ps) := by
  refine ⟨?_, rfl, ?_⟩
  · induction h with
    | init => decide
    | @step qs op h ih =>
      cases op with
      | add =>
        simp only [applySceneOp, handleAddScene, List.length_append]
        omega
      | remove i =>
        rw [applySceneOp, handleRemoveScene_eq_eraseIdx]
        by_cases hlen : qs.length > 1
        · rw [if_pos hlen]
          by_cases hi : i < qs.length
          · have := List.length_eraseIdx_add_one hi
            omega
          · rw [List.eraseIdx_of_length_le (Nat.le_of_not_lt hi)]
            omega
        · rw [if_neg hlen]
          exact ih
      | change i v =>
        simpa [applySceneOp, handleStoryboardPromptChange] using ih
  · intro h1 i
    simp [handleRemoveScene, h1]

/-- Witness for C10 at the initial one-scene state. -/
theorem c10_witness :
    1 ≤ ([""] : List String).length ∧
    handleAddScene [""] = [""] ++ [""] ∧
    (([""] : List String).length = 1 → ∀ i : Nat, handleRemoveScene [""] i = [""]) :=
  c10_scene_list_nonempty [""] SceneListReachable.init

end CreativeSuite
